import Mathlib

/-!
Verification of the cold-outreach pipeline: shallow embedding of
`daily_sender.py`, `auto_followup.py` and `run_cw_leads_pipeline.py`.

Python strings are modelled as Lean `String` (a list of characters), and
the Python string operations used by the code (`strip`, `lower`, `in`,
`startswith`, `endswith`, slicing, splitting) are embedded as
character-list functions.  Timestamp strings are interpreted through an
abstract parameter `parseTs : String → Option Int` standing for the
standard-library ISO-8601 parser (`datetime.fromisoformat`), which is an
external collaborator of the code under test; times are integers in
seconds, one day being 86400 seconds.  Python `float` arithmetic is
modelled over `ℚ`.
-/

namespace CW

/-- Python substring test `sub in s`. -/
def pyIn (sub s : String) : Bool := decide (sub.data <:+: s.data)

/-- Python `s.lower()` (ASCII case folding). -/
def pyLower (s : String) : String := ⟨s.data.map Char.toLower⟩

/-- Python `s.strip()`: drop leading and trailing whitespace. -/
def pyStrip (s : String) : String :=
  ⟨((s.data.dropWhile Char.isWhitespace).reverse.dropWhile Char.isWhitespace).reverse⟩

/-- Python `s.startswith(p)`. -/
def pyStartsWith (s p : String) : Bool := List.isPrefixOf p.data s.data

/-- Python `s.endswith(p)`. -/
def pyEndsWith (s p : String) : Bool := List.isSuffixOf p.data s.data

/-- Python slice `s[:n]`. -/
def pyTake (s : String) (n : Nat) : String := ⟨s.data.take n⟩

/-- Python slice `s[n:]`. -/
def pyDrop (s : String) (n : Nat) : String := ⟨s.data.drop n⟩

/-- Python slice `s[-1:]`: the last character as a string, `""` when empty. -/
def pyLastChar (s : String) : String :=
  match s.data.getLast? with
  | some c => ⟨[c]⟩
  | none => ""

/-- Split a character list at every occurrence of `sep` (Python `s.split(sep)`
for a one-character separator). -/
def splitOnChar (sep : Char) : List Char → List (List Char)
  | [] => [[]]
  | c :: rest =>
    let r := splitOnChar sep rest
    if c = sep then [] :: r
    else
      match r with
      | h :: t => (c :: h) :: t
      | [] => [[c]]

/-- Python `s.split()` (split on runs of whitespace, no empty words). -/
def pyWords (s : String) : List String :=
  let step := fun (acc : List (List Char) × List Char) (c : Char) =>
    if c.isWhitespace then (if acc.2 ≠ [] then (acc.1 ++ [acc.2], []) else acc)
    else (acc.1, acc.2 ++ [c])
  let r := s.data.foldl step ([], [])
  (if r.2 ≠ [] then r.1 ++ [r.2] else r.1).map List.asString

/-! ## Send-log rows

One row of `sent_log.csv`; every field is the raw CSV string
(`daily_sender._log_sent` writes these nine columns). -/

structure SendLogRow where
  contact_email : String := ""
  contact_name : String := ""
  company : String := ""
  project : String := ""
  subject : String := ""
  sent_at : String := ""
  sent_from : String := ""
  replied : String := ""
  followup_sent_at : String := ""
deriving DecidableEq

/-! ## daily_sender.py -/

/-- A parsed `CW_*.md` outbound draft, as returned by
`daily_sender._parse_draft` (the markdown parsing itself is upstream of
the dispatch logic under verification). -/

structure Draft where
  to_email : String := ""
  contact_name : String := ""
  subject : String := ""
  body : String := ""
  company : String := ""
  project : String := ""
deriving DecidableEq

/-- `daily_sender._load_sent_emails`: the set (here: list, used only via
membership) of lowercased, stripped, non-empty `contact_email` values of
the whole send log — no date or project filter. -/
def loadSentEmails (log : List SendLogRow) : List String :=
  log.filterMap (fun row =>
    let e := pyLower (pyStrip row.contact_email)
    if e = "" then none else some e)

/-- Per-sender counters returned by `daily_sender._count_sent_today`. -/
structure SentCounts where
  admin : Nat := 0
  ycao : Nat := 0
  total : Nat := 0
deriving DecidableEq

/-- `daily_sender._count_sent_today`: count log rows whose timestamp
(`sent_at`, falling back to `followup_sent_at` when `sent_at` is empty)
starts with today's date, bucketed by whether `"ycao"` occurs in
`sent_from`. -/
def countSentToday (log : List SendLogRow) (today : String) : SentCounts :=
  log.foldl (fun c row =>
    let ts := if row.sent_at ≠ "" then row.sent_at else row.followup_sent_at
    if ts ≠ "" ∧ pyTake ts 10 = today then
      if pyIn "ycao" row.sent_from then
        { c with ycao := c.ycao + 1, total := c.total + 1 }
      else
        { c with admin := c.admin + 1, total := c.total + 1 }
    else c) {}

/-- The `--sender` choice of `daily_sender.main`. -/
inductive SenderChoice
  | both
  | admin
  | ycao
deriving DecidableEq

/-- Per-account caps computed at the top of `daily_sender.main`: `admin`
only or `ycao` only get the whole `--limit`; with both senders the limit
is halved with Python floor division, `ycao_cap = limit - limit // 2`
taking the extra unit on an odd limit. -/
def capsFor (choice : SenderChoice) (limit : Int) : Int × Int :=
  match choice with
  | .admin => (limit, 0)
  | .ycao => (0, limit)
  | .both =>
    let half := Int.fdiv limit 2
    (half, limit - half)

/-- The sender-assignment loop of `daily_sender.main`: drafts are taken in
order; each goes to admin while `admin_assigned < admin_remaining`, then
to ycao while `ycao_assigned < ycao_remaining`, and the loop breaks at the
first draft once both are exhausted.  The boolean is `use_ycao`. -/
def assignBatch : List Draft → Int → Int → Int → Int → List (Draft × Bool)
  | [], _, _, _, _ => []
  | em :: rest, adminAssigned, ycaoAssigned, adminRemaining, ycaoRemaining =>
    if adminAssigned < adminRemaining then
      (em, false) :: assignBatch rest (adminAssigned + 1) ycaoAssigned adminRemaining ycaoRemaining
    else if ycaoAssigned < ycaoRemaining then
      (em, true) :: assignBatch rest adminAssigned (ycaoAssigned + 1) adminRemaining ycaoRemaining
    else []

/-- Stable insertion of `x` into `l`: `x` is placed before the first
element not `le`-below it, so ties keep their original order. -/
def insertLe (le : Draft → Draft → Bool) (x : Draft) : List Draft → List Draft
  | [] => [x]
  | y :: ys => if le x y then x :: y :: ys else y :: insertLe le x ys

/-- Stable sort by `le`.  Python `list.sort` is a stable sort, and a
stable sort under a total preorder is unique, so this insertion sort is
extensionally the sort performed by `daily_sender.main`. -/
def stableSort (le : Draft → Draft → Bool) : List Draft → List Draft
  | [] => []
  | x :: xs => insertLe le x (stableSort le xs)

/-- The queue-preparation steps of `daily_sender.main`: filter by the
`--company` substring, drop drafts whose recipient is anywhere in the
send log, and sort by descending Top-100 score (`scores` models the
`_load_top100_scores` dictionary with its `0.0` default; Python sorts by
the key `-score` ascending, stably). -/
def selectQueue (drafts : List Draft) (log : List SendLogRow)
    (scores : String → ℚ) (companyFilter : String) : List Draft :=
  let kept := drafts.filter (fun em =>
    companyFilter = "" || pyIn (pyLower companyFilter) (pyLower em.company))
  let alreadySent := loadSentEmails log
  let fresh := kept.filter (fun em => !(alreadySent.contains (pyLower em.to_email)))
  stableSort
    (fun a b => decide ((-(scores (pyLower a.to_email))) ≤ (-(scores (pyLower b.to_email))))) fresh

/-- The batch-selection logic of `daily_sender.main` (the part between
draft parsing and the preview/confirm/send step): prepare the queue,
compute the remaining per-account capacity for today (ignored under
`--all`), and assign senders.  When both remaining capacities are zero
and `--all` is not set, `main` returns before building a batch, which
equals the empty batch produced here. -/
def mainBatch (drafts : List Draft) (log : List SendLogRow) (today : String)
    (scores : String → ℚ) (choice : SenderChoice) (limit : Int)
    (allFlag : Bool) (companyFilter : String) : List (Draft × Bool) :=
  let caps := capsFor choice limit
  let sorted := selectQueue drafts log scores companyFilter
  let counts := countSentToday log today
  let adminRemaining : Int :=
    if allFlag then (sorted.length : Int) else max 0 (caps.1 - (counts.admin : Int))
  let ycaoRemaining : Int :=
    if allFlag then (sorted.length : Int) else max 0 (caps.2 - (counts.ycao : Int))
  assignBatch sorted 0 0 adminRemaining ycaoRemaining

/-- Number of drafts in a batch assigned to the admin identity. -/
def adminCount (batch : List (Draft × Bool)) : Nat :=
  (batch.filter (fun p => !p.2)).length

/-- Number of drafts in a batch assigned to the ycao identity. -/
def ycaoCount (batch : List (Draft × Bool)) : Nat :=
  (batch.filter (fun p => p.2)).length

/-- C9, counterexample: at the odd limit 41 with both senders active the
code gives admin `41 // 2 = 20` and ycao `41 - 20 = 21`, so the extra
unit goes to the second identity (ycao), not to the first as claimed. -/
theorem oddCap_first_identity_counterexample :
    capsFor SenderChoice.both 41 = (20, 21) ∧
      ¬((capsFor SenderChoice.both 41).1 = 21 ∧ (capsFor SenderChoice.both 41).2 = 20) := by
  constructor
  · decide
  · decide

/-- C9, amended: with both identities active the default cap 40 splits
20/20, and on any odd limit `L` the admin (first) identity receives the
smaller half `L // 2` while the ycao (second) identity receives the
larger half `L - L // 2 = L // 2 + 1`. -/
theorem oddCap_split_amended :
    capsFor SenderChoice.both 40 = (20, 20) ∧
      ∀ L : Int, L % 2 = 1 →
        (capsFor SenderChoice.both L).1 = Int.fdiv L 2 ∧
        (capsFor SenderChoice.both L).2 = Int.fdiv L 2 + 1 ∧
        (capsFor SenderChoice.both L).1 < (capsFor SenderChoice.both L).2 := by
  refine ⟨by decide, fun L hL => ?_⟩
  have hfd : Int.fdiv L 2 = L / 2 := Int.fdiv_eq_ediv L (by omega)
  have hc : capsFor SenderChoice.both L = (Int.fdiv L 2, L - Int.fdiv L 2) := rfl
  rw [hc, hfd]
  exact ⟨rfl, show L - L / 2 = L / 2 + 1 by omega, show L / 2 < L - L / 2 by omega⟩

/-- C9, witness: instantiating the amended split theorem at the odd limit
41 gives caps 20 and 21. -/
theorem oddCap_split_amended_witness :
    (capsFor SenderChoice.both 41).1 = Int.fdiv 41 2 ∧
    (capsFor SenderChoice.both 41).2 = Int.fdiv 41 2 + 1 ∧
    (capsFor SenderChoice.both 41).1 < (capsFor SenderChoice.both 41).2 :=
  oddCap_split_amended.2 41 (by decide)

theorem assignBatch_counts (l : List Draft) :
    ∀ a y ar yr : Int,
      (adminCount (assignBatch l a y ar yr) : Int) ≤ max 0 (ar - a) ∧
      (ycaoCount (assignBatch l a y ar yr) : Int) ≤ max 0 (yr - y) := by
  induction l with
  | nil =>
    intro a y ar yr
    constructor <;>
      (simp only [assignBatch, adminCount, ycaoCount, List.filter_nil, List.length_nil,
        Nat.cast_zero]; omega)
  | cons em rest ih =>
    intro a y ar yr
    simp only [assignBatch]
    by_cases h1 : a < ar
    · rw [if_pos h1]
      have ih1 := ih (a + 1) y ar yr
      constructor
      · have hstep : adminCount ((em, false) :: assignBatch rest (a + 1) y ar yr) =
            adminCount (assignBatch rest (a + 1) y ar yr) + 1 := by
          simp [adminCount, List.filter_cons]
        rw [hstep]
        have h := ih1.1
        omega
      · have hstep : ycaoCount ((em, false) :: assignBatch rest (a + 1) y ar yr) =
            ycaoCount (assignBatch rest (a + 1) y ar yr) := by
          simp [ycaoCount, List.filter_cons]
        rw [hstep]
        have h := ih1.2
        omega
    · rw [if_neg h1]
      by_cases h2 : y < yr
      · rw [if_pos h2]
        have ih1 := ih a (y + 1) ar yr
        constructor
        · have hstep : adminCount ((em, true) :: assignBatch rest a (y + 1) ar yr) =
              adminCount (assignBatch rest a (y + 1) ar yr) := by
            simp [adminCount, List.filter_cons]
          rw [hstep]
          have h := ih1.1
          omega
        · have hstep : ycaoCount ((em, true) :: assignBatch rest a (y + 1) ar yr) =
              ycaoCount (assignBatch rest a (y + 1) ar yr) + 1 := by
            simp [ycaoCount, List.filter_cons]
          rw [hstep]
          have h := ih1.2
          omega
      · rw [if_neg h2]
        constructor <;>
          (simp only [adminCount, ycaoCount, List.filter_nil, List.length_nil,
            Nat.cast_zero]; omega)

theorem assignBatch_mem (l : List Draft) :
    ∀ (a y ar yr : Int) (em : Draft) (b : Bool),
      (em, b) ∈ assignBatch l a y ar yr → em ∈ l := by
  induction l with
  | nil => intro a y ar yr em b h; simp [assignBatch] at h
  | cons hd rest ih =>
    intro a y ar yr em b h
    simp only [assignBatch] at h
    by_cases h1 : a < ar
    · rw [if_pos h1] at h
      rcases List.mem_cons.mp h with h | h
      · have hh : em = hd := congrArg Prod.fst h
        rw [hh]; exact List.mem_cons_self _ _
      · exact List.mem_cons_of_mem _ (ih _ _ _ _ _ _ h)
    · rw [if_neg h1] at h
      by_cases h2 : y < yr
      · rw [if_pos h2] at h
        rcases List.mem_cons.mp h with h | h
        · have hh : em = hd := congrArg Prod.fst h
          rw [hh]; exact List.mem_cons_self _ _
        · exact List.mem_cons_of_mem _ (ih _ _ _ _ _ _ h)
      · rw [if_neg h2] at h
        simp at h

theorem insertLe_mem (le : Draft → Draft → Bool) (z x : Draft) (l : List Draft) :
    x ∈ insertLe le z l ↔ x = z ∨ x ∈ l := by
  induction l with
  | nil => simp [insertLe]
  | cons y ys ih =>
    simp only [insertLe]
    by_cases h : le z y
    · rw [if_pos h]; simp
    · rw [if_neg h]
      simp only [List.mem_cons, ih]
      tauto

theorem stableSort_mem (le : Draft → Draft → Bool) (x : Draft) (l : List Draft) :
    x ∈ stableSort le l ↔ x ∈ l := by
  induction l with
  | nil => simp [stableSort]
  | cons y ys ih =>
    simp only [stableSort, insertLe_mem, ih, List.mem_cons]

theorem selectQueue_not_sent (drafts : List Draft) (log : List SendLogRow)
    (scores : String → ℚ) (cf : String) (em : Draft)
    (h : em ∈ selectQueue drafts log scores cf) :
    pyLower em.to_email ∉ loadSentEmails log := by
  unfold selectQueue at h
  rw [stableSort_mem] at h
  have hcond := (List.mem_filter.mp h).2
  simp only [List.contains, List.elem_eq_mem, Bool.not_eq_true', decide_eq_false_iff_not] at hcond
  exact hcond

/-- C1: without `--all`, each identity is assigned at most
`max 0 (identity cap - rows already logged for it today)` drafts; in
particular with the default cap 40 split 20/20 and 15 rows logged today
for admin, the batch holds at most 5 admin drafts and at most 20 ycao
drafts, whatever the queue. -/
theorem dailyCap_perIdentity (drafts : List Draft) (log : List SendLogRow) (today : String)
    (scores : String → ℚ) (choice : SenderChoice) (limit : Int) (cf : String) :
    ((adminCount (mainBatch drafts log today scores choice limit false cf) : Int) ≤
        max 0 ((capsFor choice limit).1 - ((countSentToday log today).admin : Int)) ∧
      (ycaoCount (mainBatch drafts log today scores choice limit false cf) : Int) ≤
        max 0 ((capsFor choice limit).2 - ((countSentToday log today).ycao : Int))) ∧
    ((countSentToday log today).admin = 15 →
      adminCount (mainBatch drafts log today scores SenderChoice.both 40 false cf) ≤ 5 ∧
      ycaoCount (mainBatch drafts log today scores SenderChoice.both 40 false cf) ≤ 20) := by
  have key : ∀ (choice : SenderChoice) (limit : Int),
      (adminCount (mainBatch drafts log today scores choice limit false cf) : Int) ≤
        max 0 ((capsFor choice limit).1 - ((countSentToday log today).admin : Int)) ∧
      (ycaoCount (mainBatch drafts log today scores choice limit false cf) : Int) ≤
        max 0 ((capsFor choice limit).2 - ((countSentToday log today).ycao : Int)) := by
    intro choice limit
    have h := assignBatch_counts (selectQueue drafts log scores cf) 0 0
      (max 0 ((capsFor choice limit).1 - ((countSentToday log today).admin : Int)))
      (max 0 ((capsFor choice limit).2 - ((countSentToday log today).ycao : Int)))
    exact ⟨le_trans h.1 (by omega), le_trans h.2 (by omega)⟩
  refine ⟨key choice limit, fun h15 => ?_⟩
  have h := key SenderChoice.both 40
  have hcaps : capsFor SenderChoice.both 40 = (20, 20) := by decide
  rw [hcaps, h15] at h
  constructor
  · have := h.1; omega
  · have := h.2; omega

/-- C1, witness: a concrete run — queue of 25 drafts, 15 admin rows
logged today — is assigned at most 5 admin and at most 20 ycao drafts. -/
theorem dailyCap_perIdentity_witness :
    (countSentToday
        (List.replicate 15
          { contact_email := "a@b.c", sent_at := "2026-01-02T10:00:00+00:00",
            sent_from := "admin@buildingcodeconsulting.com" })
        "2026-01-02").admin = 15 ∧
    adminCount (mainBatch (List.replicate 25 { to_email := "new@x.com" })
        (List.replicate 15
          { contact_email := "a@b.c", sent_at := "2026-01-02T10:00:00+00:00",
            sent_from := "admin@buildingcodeconsulting.com" })
        "2026-01-02" (fun _ => 0) SenderChoice.both 40 false "") ≤ 5 ∧
    ycaoCount (mainBatch (List.replicate 25 { to_email := "new@x.com" })
        (List.replicate 15
          { contact_email := "a@b.c", sent_at := "2026-01-02T10:00:00+00:00",
            sent_from := "admin@buildingcodeconsulting.com" })
        "2026-01-02" (fun _ => 0) SenderChoice.both 40 false "") ≤ 20 := by
  refine ⟨by decide, ?_⟩
  exact (dailyCap_perIdentity (List.replicate 25 { to_email := "new@x.com" })
    (List.replicate 15
      { contact_email := "a@b.c", sent_at := "2026-01-02T10:00:00+00:00",
        sent_from := "admin@buildingcodeconsulting.com" })
    "2026-01-02" (fun _ => 0) SenderChoice.both 40 "").2 (by decide)

/-- C10: the dispatcher's dedup is keyed on the (lowercased) email alone
with no time window — `loadSentEmails` collects every non-empty logged
email regardless of that row's date or project, and no batch member's
recipient is in that set. -/
theorem dispatch_dedup_email_only (drafts : List Draft) (log : List SendLogRow)
    (today : String) (scores : String → ℚ) (choice : SenderChoice) (limit : Int)
    (allFlag : Bool) (cf : String) :
    (∀ e, e ∈ loadSentEmails log ↔
        ∃ row ∈ log, pyLower (pyStrip row.contact_email) ≠ "" ∧
          e = pyLower (pyStrip row.contact_email)) ∧
    (∀ (em : Draft) (b : Bool),
        (em, b) ∈ mainBatch drafts log today scores choice limit allFlag cf →
        pyLower em.to_email ∉ loadSentEmails log) := by
  constructor
  · intro e
    simp only [loadSentEmails, List.mem_filterMap]
    constructor
    · rintro ⟨row, hrow, hf⟩
      by_cases h : pyLower (pyStrip row.contact_email) = ""
      · rw [if_pos h] at hf; exact absurd hf (by simp)
      · rw [if_neg h] at hf
        exact ⟨row, hrow, h, (Option.some.inj hf).symm⟩
    · rintro ⟨row, hrow, hne, he⟩
      exact ⟨row, hrow, by rw [if_neg hne, he]⟩
  · intro em b hmem
    have hq : em ∈ selectQueue drafts log scores cf :=
      assignBatch_mem _ _ _ _ _ _ _ hmem
    exact selectQueue_not_sent drafts log scores cf em hq

/-- C10, witness: a concrete batch member's recipient is not among the
logged emails. -/
theorem dispatch_dedup_email_only_witness :
    pyLower (Draft.to_email { to_email := "new@x.com" }) ∉
      loadSentEmails [{ contact_email := "Taken@X.com " }] :=
  (dispatch_dedup_email_only [{ to_email := "new@x.com" }]
    [{ contact_email := "Taken@X.com " }] "2026-01-01" (fun _ => 0)
    SenderChoice.both 40 false "").2 { to_email := "new@x.com" } false (by decide)

/-! ## auto_followup.py -/

/-- The replied test of `auto_followup`: a row counts as replied when its
stripped `replied` field is one of `"1"`, `"true"`, `"yes"`, `"True"`. -/
def repliedMarked (row : SendLogRow) : Bool :=
  pyStrip row.replied = "1" || pyStrip row.replied = "true" ||
    pyStrip row.replied = "yes" || pyStrip row.replied = "True"

/-- `auto_followup.get_due_contacts`: keep the rows that are not marked
replied, have an empty (after stripping) `followup_sent_at`, and whose
`sent_at` parses to a time at or before `now - days` days. -/
def getDueContacts (parseTs : String → Option Int) (rows : List SendLogRow)
    (days : Int) (now : Int) : List SendLogRow :=
  let cutoff := now - days * 86400
  rows.filter (fun row =>
    if repliedMarked row then false
    else if pyStrip row.followup_sent_at ≠ "" then false
    else
      match parseTs row.sent_at with
      | some t => decide (t ≤ cutoff)
      | none => false)

/-- Specification-side predicate for being follow-up-due: not replied, no
follow-up sent yet, and a parseable sent time at least `days` days before
`now`. -/
def duePred (parseTs : String → Option Int) (days now : Int) (row : SendLogRow) : Prop :=
  repliedMarked row = false ∧ pyStrip row.followup_sent_at = "" ∧
    ∃ t, parseTs row.sent_at = some t ∧ t + days * 86400 ≤ now

/-- The in-place update `row["followup_sent_at"] = datetime.now(...).isoformat()`
performed by `auto_followup.send_followups` on a successful send. -/
def setFollowupSent (row : SendLogRow) (nowIso : String) : SendLogRow :=
  { row with followup_sent_at := nowIso }

/-- `auto_followup.send_followups`: walk the due rows; under `--dry-run`
nothing is sent; otherwise each row whose send succeeds (`sendOk`
abstracts the e-mail transport collaborator) gets its
`followup_sent_at` stamped with the current ISO time and is returned in
the `sent` list. -/
def sendFollowups (due : List SendLogRow) (sendOk : SendLogRow → Bool)
    (dryRun : Bool) (nowIso : String) : List SendLogRow :=
  if dryRun then []
  else due.filterMap (fun row =>
    if sendOk row then some (setFollowupSent row nowIso) else none)

/-- C4: `get_due_contacts` returns exactly the rows that are unreplied,
follow-up-free and whose parseable sent time is at least `days` days old;
and a row stamped by a successful follow-up send (the ISO timestamp is
never blank) is never due again, so at most one follow-up is ever sent
per entry. -/
theorem followup_due_once (parseTs : String → Option Int) :
    (∀ (rows : List SendLogRow) (days now : Int) (row : SendLogRow),
        row ∈ getDueContacts parseTs rows days now ↔
          row ∈ rows ∧ duePred parseTs days now row) ∧
    (∀ (due : List SendLogRow) (sendOk : SendLogRow → Bool) (nowIso : String)
        (row : SendLogRow), pyStrip nowIso ≠ "" →
        row ∈ sendFollowups due sendOk false nowIso →
        ∀ (rows : List SendLogRow) (days now : Int),
          row ∉ getDueContacts parseTs rows days now) := by
  have hchar : ∀ (days now : Int) (row : SendLogRow),
      (if repliedMarked row then false
        else if pyStrip row.followup_sent_at ≠ "" then false
        else
          match parseTs row.sent_at with
          | some t => decide (t ≤ now - days * 86400)
          | none => false) = true ↔ duePred parseTs days now row := by
    intro days now row
    unfold duePred
    by_cases h1 : repliedMarked row
    · rw [if_pos h1]
      simp [h1]
    · have hb1 : repliedMarked row = false := by simpa using h1
      rw [if_neg h1]
      by_cases h2 : pyStrip row.followup_sent_at ≠ ""
      · rw [if_pos h2]
        constructor
        · intro h; exact absurd h (by simp)
        · rintro ⟨-, hfu, -⟩; exact absurd hfu h2
      · rw [if_neg h2]
        push_neg at h2
        cases hp : parseTs row.sent_at with
        | none =>
          constructor
          · intro h; exact absurd h (by simp)
          · rintro ⟨-, -, u, hu, -⟩; exact absurd hu (by simp)
        | some t =>
          constructor
          · intro hd
            have hle : t ≤ now - days * 86400 := of_decide_eq_true hd
            exact ⟨hb1, h2, t, rfl, by omega⟩
          · rintro ⟨-, -, u, hu, hle⟩
            have hut : u = t := (Option.some.inj hu).symm
            subst hut
            exact decide_eq_true (by omega)
  constructor
  · intro rows days now row
    unfold getDueContacts
    rw [List.mem_filter, hchar]
  · intro due sendOk nowIso row hiso hmem rows days now hdue
    unfold sendFollowups at hmem
    rw [if_neg (by simp)] at hmem
    rw [List.mem_filterMap] at hmem
    obtain ⟨src, _, hf⟩ := hmem
    by_cases hok : sendOk src
    · rw [if_pos hok] at hf
      have hrow : row = setFollowupSent src nowIso := (Option.some.inj hf).symm
      have hdue2 := ((List.mem_filter.mp hdue).2)
      rw [hchar] at hdue2
      have hfu := hdue2.2.1
      rw [hrow] at hfu
      exact hiso hfu
    · rw [if_neg hok] at hf
      exact absurd hf (by simp)

/-- C4, witness: a concrete unreplied row sent four days ago is due, and
after a successful follow-up send its updated copy is never due again. -/
theorem followup_due_once_witness :
    ({ contact_email := "a@b.c", sent_at := "T0" } : SendLogRow) ∈
      getDueContacts (fun s => if s = "T0" then some 0 else none)
        [{ contact_email := "a@b.c", sent_at := "T0" }] 4 345600 ∧
    setFollowupSent { contact_email := "a@b.c", sent_at := "T0" }
        "2026-01-05T00:00:00+00:00" ∉
      getDueContacts (fun s => if s = "T0" then some 0 else none)
        [setFollowupSent { contact_email := "a@b.c", sent_at := "T0" }
          "2026-01-05T00:00:00+00:00"] 4 1000000000 := by
  constructor
  · exact ((followup_due_once (fun s => if s = "T0" then some 0 else none)).1
      [{ contact_email := "a@b.c", sent_at := "T0" }] 4 345600
      { contact_email := "a@b.c", sent_at := "T0" }).mpr
      ⟨by decide, by decide, by decide, 0, by decide, by decide⟩
  · exact (followup_due_once (fun s => if s = "T0" then some 0 else none)).2
      [{ contact_email := "a@b.c", sent_at := "T0" }] (fun _ => true)
      "2026-01-05T00:00:00+00:00"
      (setFollowupSent { contact_email := "a@b.c", sent_at := "T0" }
        "2026-01-05T00:00:00+00:00")
      (by decide) (by decide)
      [setFollowupSent { contact_email := "a@b.c", sent_at := "T0" }
        "2026-01-05T00:00:00+00:00"] 4 1000000000

/-! ## run_cw_leads_pipeline.py: stage mapping, value parsing, scoring -/

/-- `_stage_service_focus`: map a scraped stage label to
`(service_focus, priority_score)` by keyword search on the lowercased
text, defaulting to `("Both", 6)`. -/
def stageServiceFocus (stageText : String) : String × ℚ :=
  let s := pyLower stageText
  if pyIn "planning" s || pyIn "proposed" s || pyIn "pre-design" s ||
      pyIn "design development" s then
    ("Plan Review", 9)
  else if pyIn "1-3" s || pyIn "1 to 3" s || pyIn "starts in 1" s || pyIn "1–3" s then
    ("Both (Inspection Lead)", 10)
  else if pyIn "4-6" s || pyIn "4 to 6" s || pyIn "4–6" s || pyIn "4-12" s ||
      pyIn "4 to 12" s || pyIn "7-12" s || pyIn "7 to 12" s || pyIn "7–12" s then
    ("Inspection", 8)
  else if pyIn "groundbreaking" s || pyIn "breaking ground" s then
    ("Inspection (Imminent)", 9)
  else if pyIn "under construction" s || pyIn "early construction" s ||
      pyIn "construction" s then
    ("Inspection (Active)", 7)
  else
    ("Both", 6)

/-- The cleaning step of `_parse_value_millions`:
`value_str.lower().replace(",", "").replace("$", "").strip()`. -/
def cleanedValue (valueStr : String) : String :=
  pyStrip ⟨(pyLower valueStr).data.filter (fun c => c ≠ ',' && c ≠ '$')⟩

/-- Character class of the regex `[\d.]`. -/
def isDigitDot (c : Char) : Bool := c.isDigit || c = '.'

/-- `re.search(r"[\d.]+", s)`: the first maximal run of digits and dots,
if any. -/
def firstDigitRun : List Char → Option (List Char)
  | [] => none
  | c :: cs =>
    if isDigitDot c then some (c :: cs.takeWhile isDigitDot)
    else firstDigitRun cs

/-- Decimal value of a digit list. -/
def natOfDigits (l : List Char) : Nat :=
  l.foldl (fun n c => 10 * n + (c.toNat - 48)) 0

/-- Python `float(m.group())` on a string of digits and dots: at most one
dot and at least one digit, else a `ValueError` (`none`). -/
def pyFloatOfRun (l : List Char) : Option ℚ :=
  if l = [] then none
  else if l.count '.' = 0 then some (natOfDigits l)
  else if l.count '.' = 1 then
    let ip := l.takeWhile (fun c => c ≠ '.')
    let fp := (l.dropWhile (fun c => c ≠ '.')).tail
    if ip = [] ∧ fp = [] then none
    else some ((natOfDigits ip : ℚ) + (natOfDigits fp : ℚ) / ((10 : ℚ) ^ fp.length))
  else none

/-- `_parse_value_millions`: clean the string, take the first numeric
run, then scale by the detected magnitude: `billion`/trailing `b` means
thousands of millions, `million`/trailing `m` means the number is already
in millions, and a bare number is taken as dollars and divided by
1,000,000.  Every failure yields `0.0`. -/
def parseValueMillions (valueStr : String) : ℚ :=
  if valueStr = "" then 0
  else
    let s := cleanedValue valueStr
    match firstDigitRun s.data with
    | none => 0
    | some run =>
      match pyFloatOfRun run with
      | none => 0
      | some num =>
        if pyIn "billion" s || pyLastChar s = "b" then num * 1000
        else if pyIn "million" s || pyEndsWith s "m" then num
        else num / 1000000

/-- A contact scraped from a lead's ConstructionWire detail page. -/
structure DetailContact where
  name : String := ""
  role : String := ""
  email : String := ""
  company : String := ""
deriving DecidableEq

/-- A lead record as produced by phase 1 scraping. -/
structure Lead where
  project_name : String := ""
  stage : String := ""
  construction_start : String := ""
  estimated_value : String := ""
  value : String := ""
  companies_parsed : List (String × String) := []
  detail_contacts : List DetailContact := []
deriving DecidableEq

/-- The role-desirability loop of `_score_lead`: walk `companies_parsed`
and stop at the first company whose role is Developer/Owner-family (+2)
or GC/Contractor/Architect/Construction-Manager family (+1); other roles
are passed over. -/
def roleBonus : List (String × String) → ℚ
  | [] => 0
  | (_, role) :: rest =>
    if role = "Developer/Owner" || role = "Developer" || role = "Owner" then 2
    else if role = "GC/Contractor" || role = "Architect" || role = "Construction Manager" then 1
    else roleBonus rest

/-- Python `min(a, b)` on two numbers. -/
def pyMin (a b : ℚ) : ℚ := if a ≤ b then a else b

/-- Floor of a rational, computed as the floor division of numerator by
denominator. -/
def ratFloor (q : ℚ) : Int := Int.fdiv q.num (q.den : Int)

/-- Python `round(x, 2)`: round to the nearest multiple of 1/100, ties to
the even hundredth (the binary-float representation error of actual
Python floats is not modelled). -/
def pyRound2 (q : ℚ) : ℚ :=
  let x := q * 100
  let n : Int := ratFloor x
  let frac := x - (n : ℚ)
  let r : Int :=
    if frac < 1 / 2 then n
    else if 1 / 2 < frac then n + 1
    else if n % 2 = 0 then n else n + 1
  (r : ℚ) / 100

/-- `_score_lead`: stage priority + capped value bonus + contact-quality
bonus + role bonus, rounded to two decimals. -/
def scoreLead (lead : Lead) : ℚ :=
  let stageScore := (stageServiceFocus lead.stage).2
  let valueM := parseValueMillions
    (if lead.estimated_value ≠ "" then lead.estimated_value
     else if lead.value ≠ "" then lead.value else "")
  let score1 := stageScore + pyMin (valueM / 10) 5
  let score2 := if lead.detail_contacts.any (fun dc => dc.email ≠ "") then score1 + 3 else score1
  pyRound2 (score2 + roleBonus lead.companies_parsed)

unseal Rat.add Rat.mul Rat.inv Rat.sub Rat.ofScientific in
/-- C6, counterexample: for a lead with stage text `""` and estimated
value `"$1234567"` the code scores `round(6.1234567, 2) = 6.12`, while
the claimed un-rounded sum is `6.1234567` — the claim omits the final
two-decimal rounding. -/
theorem score_formula_counterexample :
    scoreLead { stage := "", estimated_value := "$1234567" } = 153 / 25 ∧
    (stageServiceFocus "").2 + pyMin (parseValueMillions "$1234567" / 10) 5 +
        0 + roleBonus [] = 61234567 / 10000000 ∧
    (153 / 25 : ℚ) ≠ 61234567 / 10000000 := by
  refine ⟨by decide, by decide, by decide⟩

unseal Rat.add Rat.mul Rat.inv Rat.sub Rat.ofScientific in
/-- C6, amended: the score equals the claimed sum — stage priority (1–10,
defaulting to 6), `min(value_millions / 10, 5)`, +3 when some detail
contact has an email, and the role bonus of the first matching company —
rounded to two decimal places; the example lead (stage "Starts in 1-3
months", value `$15M`, Developer/Owner company, no contact email) scores
exactly 13.5. -/
theorem score_formula_amended :
    (∀ lead : Lead,
        scoreLead lead =
          pyRound2 ((stageServiceFocus lead.stage).2 +
            pyMin (parseValueMillions
              (if lead.estimated_value ≠ "" then lead.estimated_value
               else if lead.value ≠ "" then lead.value else "") / 10) 5 +
            (if lead.detail_contacts.any (fun dc => dc.email ≠ "") then 3 else 0) +
            roleBonus lead.companies_parsed)) ∧
    (∀ s : String, 1 ≤ (stageServiceFocus s).2 ∧ (stageServiceFocus s).2 ≤ 10) ∧
    scoreLead
      { stage := "Starts in 1-3 months", estimated_value := "$15M",
        companies_parsed := [("Acme Dev", "Developer/Owner"), ("BuildCo", "GC/Contractor")] } =
      27 / 2 := by
  refine ⟨fun lead => ?_, fun s => ?_, by decide⟩
  · dsimp only [scoreLead]
    by_cases h : lead.detail_contacts.any (fun dc => dc.email ≠ "")
    · rw [if_pos h, if_pos h]
    · rw [if_neg h, if_neg h]
      exact congrArg pyRound2 (by ring)
  · dsimp only [stageServiceFocus]
    split_ifs <;> norm_num

/-! ## run_cw_leads_pipeline.py: value-parsing behaviour (C8) -/

unseal Rat.add Rat.mul Rat.inv Rat.sub Rat.ofScientific in
/-- C8, counterexample: the code has no `K`/`thousand` branch — `"500K"`
falls to the raw-number path and yields `0.0005`, not `0.5` million —
and a suffix-free `"15"` is taken as 15 dollars (`0.000015` million),
not as 15 million. -/
theorem value_parse_counterexample :
    parseValueMillions "500K" = 1 / 2000 ∧ parseValueMillions "500K" ≠ 1 / 2 ∧
    parseValueMillions "15" = 3 / 200000 ∧ parseValueMillions "15" ≠ 15 := by
  refine ⟨by decide, by decide, by decide, by decide⟩

theorem firstDigitRun_none (l : List Char) (h : ∀ c ∈ l, isDigitDot c = false) :
    firstDigitRun l = none := by
  induction l with
  | nil => rfl
  | cons c cs ih =>
    unfold firstDigitRun
    rw [h c (List.mem_cons_self c cs)]
    simp only [Bool.false_eq_true, if_false]
    exact ih (fun d hd => h d (List.mem_cons_of_mem c hd))

unseal Rat.add Rat.mul Rat.inv Rat.sub Rat.ofScientific in
/-- C8, amended: value parsing strips dollar signs and commas and
lowercases; a trailing `"b"`/`"billion"` multiplies by 1000, a trailing
`"m"`/`"million"` keeps the number as millions, a bare number is treated
as dollars and divided by 1,000,000 (so `"$2,500,000"` is 2.5 and
`"500K"` is 0.0005 — no thousand suffix is recognised), and anything
without a digit or dot, or with an unparsable numeric run, yields 0
rather than an error. -/
theorem value_parse_amended :
    (∀ v : String, (∀ c ∈ (cleanedValue v).data, isDigitDot c = false) →
        parseValueMillions v = 0) ∧
    parseValueMillions "$2,500,000" = 5 / 2 ∧
    parseValueMillions "2.5M" = 5 / 2 ∧
    parseValueMillions "3 million" = 3 ∧
    parseValueMillions "1.2B" = 1200 ∧
    parseValueMillions "500K" = 1 / 2000 ∧
    parseValueMillions "..." = 0 := by
  refine ⟨fun v hv => ?_, by decide, by decide, by decide, by decide, by decide, by decide⟩
  unfold parseValueMillions
  by_cases h0 : v = ""
  · rw [if_pos h0]
  · rw [if_neg h0]
    simp only [firstDigitRun_none (cleanedValue v).data hv]

unseal Rat.add Rat.mul Rat.inv Rat.sub Rat.ofScientific in
/-- C8, witness: the unparsable value `"N/A"` resolves to zero. -/
theorem value_parse_amended_witness :
    parseValueMillions "N/A" = 0 :=
  value_parse_amended.1 "N/A" (by decide)

/-! ## run_cw_leads_pipeline.py: company-role parsing (C2) -/

/-- `ROLE_PREFIXES`, in source order: multi-token codes come before the
single-token codes sharing their leading characters. -/
def ROLE_PREFIXES : List (String × String) :=
  [("(D/O)", "Developer/Owner"),
   ("(C/M)", "Construction Manager"),
   ("(CM)", "Construction Manager"),
   ("(SE)", "Structural Engineer"),
   ("(ME)", "MEP Engineer"),
   ("(D)", "Developer"),
   ("(O)", "Owner"),
   ("(C)", "GC/Contractor"),
   ("(A)", "Architect")]

/-- The prefix-scanning loop of `_parse_all_companies`: first table entry
whose code prefixes the line. -/
def matchRolePrefix : List (String × String) → String → Option (String × String)
  | [], _ => none
  | pr :: rest, line =>
    if pyStartsWith line pr.1 then some pr else matchRolePrefix rest line

/-- One iteration of the `_parse_all_companies` loop on an already
stripped, non-blank line: a matched code contributes
`(rest-of-line stripped, role)` when the company part is non-empty, and
an unmatched line is passed through with role `"Company"`. -/
def parseCompanyLine (line : String) : Option (String × String) :=
  match matchRolePrefix ROLE_PREFIXES line with
  | some pr =>
    let company := pyStrip (pyDrop line pr.1.length)
    if company ≠ "" then some (company, pr.2) else none
  | none => if line ≠ "" then some (line, "Company") else none

/-- `_parse_all_companies`: strip each line of the companies cell, skip
blanks, and parse the rest. -/
def parseAllCompanies (companiesCell : String) : List (String × String) :=
  (splitOnChar (Char.ofNat 10) companiesCell.data).filterMap (fun rawLine =>
    let line := pyStrip ⟨rawLine⟩
    if line = "" then none else parseCompanyLine line)

theorem matchRolePrefix_DO (line : String) (h : pyStartsWith line "(D/O)" = true) :
    matchRolePrefix ROLE_PREFIXES line = some ("(D/O)", "Developer/Owner") := by
  unfold ROLE_PREFIXES matchRolePrefix
  rw [h]
  rfl

/-- C2: a (stripped) companies-cell line beginning with the multi-token
code `"(D/O)"` always parses to role `"Developer/Owner"` — the table is
scanned in order and `"(D/O)"` precedes `"(D)"` — and the whole-cell
parse of `"(D/O)Acme Corp"` is exactly `[("Acme Corp", "Developer/Owner")]`. -/
theorem rolePrefix_precedence :
    (∀ line : String, pyStartsWith line "(D/O)" = true →
        ∀ c r, parseCompanyLine line = some (c, r) → r = "Developer/Owner") ∧
    parseAllCompanies "(D/O)Acme Corp" = [("Acme Corp", "Developer/Owner")] := by
  constructor
  · intro line h c r hp
    unfold parseCompanyLine at hp
    rw [matchRolePrefix_DO line h] at hp
    dsimp only at hp
    by_cases hc : pyStrip (pyDrop line (String.length "(D/O)")) ≠ ""
    · rw [if_pos hc] at hp
      exact (Prod.mk.injEq _ _ _ _ ▸ Option.some.inj hp).2.symm
    · rw [if_neg hc] at hp
      exact absurd hp (by simp)
  · decide

/-- C2, witness: the concrete line `"(D/O)Acme Corp"` starts with
`"(D/O)"` and parses to role `"Developer/Owner"`. -/
theorem rolePrefix_precedence_witness :
    pyStartsWith "(D/O)Acme Corp" "(D/O)" = true ∧ "Developer/Owner" = "Developer/Owner" :=
  ⟨by decide, rolePrefix_precedence.1 "(D/O)Acme Corp" (by decide)
    "Acme Corp" "Developer/Owner" (by decide)⟩

/-! ## run_cw_leads_pipeline.py: phase 5 e-mail generation -/

/-- A newline as a string (the separator of the `"\n".join` calls). -/
def nl : String := ⟨[Char.ofNat 10]⟩

/-- An apostrophe as a string (used inside some template strings). -/
def apos : String := ⟨[Char.ofNat 39]⟩

/-- `_first_name`: the first whitespace-separated word of the stripped
full name, or the empty string. -/
def firstName (fullName : String) : String :=
  match pyWords (pyStrip fullName) with
  | [] => ""
  | w :: _ => w

/-- `_clean_company_name`: take the text before the first newline or tab
and strip it. -/
def cleanCompanyName (name : String) : String :=
  pyStrip ⟨name.data.takeWhile (fun c => c ≠ Char.ofNat 10 && c ≠ Char.ofNat 9)⟩

/-- `_role_is_gc_or_cm`. -/
def roleIsGcOrCm (role : String) : Bool :=
  pyIn "GC" role || pyIn "Contractor" role || pyIn "Construction Manager" role ||
    pyIn "CM" role

/-- `_role_is_developer_or_owner`. -/
def roleIsDeveloperOrOwner (role : String) : Bool :=
  pyIn "Developer" role || pyIn "Owner" role

/-- `_role_is_architect`. -/
def roleIsArchitect (role : String) : Bool := pyIn "Architect" role

/-- `_map_cw_role`: normalise a detail-page role string to a canonical
role category, passing unknown roles through unchanged. -/
def mapCwRole (rawRole : String) : String :=
  let r := pyLower rawRole
  if pyIn "general contractor" r || pyIn "bidding" r || pyIn "construction manager" r ||
      pyIn "cm" r then "GC/Contractor"
  else if pyIn "developer" r || pyIn "owner" r then "Developer/Owner"
  else if pyIn "architect" r then "Architect"
  else rawRole

/-- The `bullet_expertise` paragraph of `_generate_email_body`. -/
def bulletExpertise : String :=
  "Multi-Discipline Expertise: Our team brings together licensed Professional Engineers " ++
  "across all major disciplines and multiple ICC Master Code Professionals (MCP). We handle " ++
  "Building, Mechanical, Electrical, Plumbing, and Fire Protection code inspections and plan " ++
  "review — and serve as a hands-on technical resource for code compliance questions, " ++
  "providing professional guidance when issues arise."

/-- The `bullet_scheduling` paragraph of `_generate_email_body`. -/
def bulletScheduling : String :=
  "Responsive Scheduling: We offer same-day or next-business-day inspection availability " ++
  "to keep your project milestones on track."

/-- The `bullet_billing` paragraph of `_generate_email_body`. -/
def bulletBilling : String :=
  "Fair, Visit-Based Billing: Billing is based on actual visits completed — our fee is a " ++
  "flat rate per inspection visit actually performed. You will never be billed based on an " ++
  "upfront estimate. If your project wraps up in fewer inspections than projected, you pay " ++
  "only for what was done."

/-- The GC / Construction-Manager branch of `_generate_email_body`:
inspection pitch only, no plan-review mention. -/
def gcParts (salutation company projectName : String) : List String :=
  [salutation,
   "",
   "I noticed " ++ company ++ " is working on " ++ projectName ++ " in Washington, DC and wanted " ++
     "to take a moment to introduce Building Code Consulting LLC (BCC) as a potential " ++
     "resource for your Third-Party Inspection needs.",
   "",
   "BCC is a DC-based engineering firm focused exclusively on Washington, D.C. " ++
     "Third-Party Code Compliance Inspections. A few reasons " ++ company ++ " may find us " ++
     "a strong fit for this project:",
   "",
   bulletExpertise,
   "",
   bulletScheduling,
   "",
   bulletBilling,
   "",
   "We are not submitting a formal proposal at this stage, but if you are still " ++
     "finalizing your inspection vendor list for this project, we would welcome the " ++
     "opportunity to provide a competitive quote.",
   "",
   "Are you open to a quick 5-minute call or a brief capability overview?"]

/-- The early-stage Developer/Owner branch of `_generate_email_body`. -/
def devOwnerEarlyParts (salutation company projectName : String) : List String :=
  [salutation,
   "",
   "I came across " ++ projectName ++ " and wanted to briefly introduce Building Code " ++
     "Consulting LLC (BCC) as a resource for " ++ company ++ apos ++ "s Third-Party Plan Review " ++
     "and Code Compliance Inspection needs.",
   "",
   "BCC is a DC-based firm specializing in Third-Party Plan Review and Code " ++
     "Compliance Inspections. At this stage of the project, our plan review services " ++
     "can help identify and resolve code issues before submission — saving time and " ++
     "avoiding costly revision cycles. A few highlights:",
   "",
   bulletExpertise,
   "",
   "Plan Review Services: We provide expedited Third-Party Plan Review for DC and " ++
     "nationwide jurisdictions. Our reviews identify code deficiencies before " ++
     "submission, reducing agency review cycles and keeping your schedule on track.",
   "",
   bulletBilling,
   "",
   "We are not submitting a formal proposal at this stage, but if you would like " ++
     "to learn more about how BCC can support " ++ projectName ++ " through plan review or " ++
     "future inspections, we would welcome the conversation.",
   "",
   "Are you open to a quick 5-minute call?"]

/-- The later-stage Developer/Owner branch of `_generate_email_body`. -/
def devOwnerLateParts (salutation company projectName : String) : List String :=
  [salutation,
   "",
   "I came across " ++ projectName ++ " and wanted to briefly introduce Building Code " ++
     "Consulting LLC (BCC) as a resource for " ++ company ++ apos ++ "s Third-Party Inspection " ++
     "and Plan Review needs.",
   "",
   "BCC is a DC-based firm specializing in Third-Party Code Compliance Inspections " ++
     "and Plan Review. A few highlights:",
   "",
   bulletExpertise,
   "",
   bulletScheduling,
   "",
   bulletBilling,
   "",
   "Also, as a quick note — BCC also offers Third-Party Plan Review Services for DC " ++
     "and nationwide jurisdictions. If your team needs expedited pre-submission code " ++
     "review or peer review, we would be glad to assist.",
   "",
   "We are not submitting a formal proposal at this stage, but if you would like to " ++
     "learn more about our services for " ++ projectName ++ ", we would welcome the conversation.",
   "",
   "Are you open to a quick 5-minute call?"]

/-- The early-stage Architect branch of `_generate_email_body`. -/
def architectEarlyParts (salutation company projectName : String) : List String :=
  [salutation,
   "",
   "I came across " ++ projectName ++ " and wanted to briefly introduce Building Code " ++
     "Consulting LLC (BCC). We frequently collaborate with architects on Third-Party " ++
     "Plan Review and peer review for DC projects — particularly at the design stage " ++
     "when code issues are most efficiently resolved.",
   "",
   "BCC is a DC-based firm specializing in DC Third-Party Code Compliance and Plan " ++
     "Review. A few highlights relevant to " ++ company ++ ":",
   "",
   bulletExpertise,
   "",
   "Plan Review and Peer Review: We provide expedited Third-Party Plan Review for " ++
     "DC and nationwide jurisdictions. Our team can review drawings for code compliance " ++
     "before submission — catching issues early and protecting your project schedule.",
   "",
   bulletBilling,
   "",
   "We are not submitting a formal proposal at this stage, but would welcome the " ++
     "opportunity to discuss how BCC can support " ++ projectName ++ " during design and " ++
     "into construction.",
   "",
   "Are you open to a quick 5-minute call?"]

/-- The later-stage Architect branch of `_generate_email_body`. -/
def architectLateParts (salutation company projectName : String) : List String :=
  [salutation,
   "",
   "I came across " ++ projectName ++ " and wanted to briefly introduce Building Code " ++
     "Consulting LLC (BCC). We often collaborate with architects on Third-Party Code " ++
     "Compliance reviews and inspections for DC projects.",
   "",
   "BCC is a DC-based firm specializing in DC Third-Party Code Compliance and Plan " ++
     "Review. A few highlights relevant to " ++ company ++ ":",
   "",
   bulletExpertise,
   "",
   bulletScheduling,
   "",
   bulletBilling,
   "",
   "We also offer Third-Party Plan Review and peer review services that can help " ++
     "identify code issues before submission — reducing revision cycles and protecting " ++
     "your project schedule.",
   "",
   "We are not submitting a formal proposal at this stage, but would welcome the " ++
     "opportunity to discuss how BCC can support " ++ projectName ++ ".",
   "",
   "Are you open to a quick 5-minute call?"]

/-- The early-stage default branch of `_generate_email_body`. -/
def defaultEarlyParts (salutation projectName : String) : List String :=
  [salutation,
   "",
   "I came across " ++ projectName ++ " and wanted to briefly introduce Building Code " ++
     "Consulting LLC (BCC) as a resource for Third-Party Plan Review and Inspection needs.",
   "",
   "BCC is a DC-based engineering firm specializing in Washington, D.C. Third-Party " ++
     "Code Compliance Plan Review and Inspections. A few reasons we may be a strong fit:",
   "",
   bulletExpertise,
   "",
   "Plan Review Services: We offer expedited Third-Party Plan Review for DC and " ++
     "nationwide jurisdictions — helping identify code issues before submission.",
   "",
   bulletBilling,
   "",
   "We are not submitting a formal proposal at this stage, but if you are exploring " ++
     "plan review or inspection resources for this project, we would welcome a brief conversation.",
   "",
   "Are you open to a quick 5-minute call?"]

/-- The later-stage default branch of `_generate_email_body`. -/
def defaultLateParts (salutation projectName : String) : List String :=
  [salutation,
   "",
   "I came across " ++ projectName ++ " and wanted to briefly introduce Building Code " ++
     "Consulting LLC (BCC) as a potential resource for Third-Party Inspection needs.",
   "",
   "BCC is a DC-based engineering firm specializing in Washington, D.C. Third-Party " ++
     "Code Compliance Inspections. A few reasons we may be a strong fit:",
   "",
   bulletExpertise,
   "",
   bulletScheduling,
   "",
   bulletBilling,
   "",
   "We are not submitting a formal proposal at this stage, but if you are exploring " ++
     "inspection vendors for this project, we would welcome a brief conversation.",
   "",
   "Are you open to a quick 5-minute call?"]

/-- `_generate_email_body`: salutation from the first name, then one of
four role-branched templates (GC/CM first, then Developer/Owner,
Architect, default), the non-GC branches further split on whether the
service focus is Plan Review. -/
def generateEmailBody (contactName company role projectName serviceFocus : String) : String :=
  let first := firstName contactName
  let salutation := if first ≠ "" then "Hi " ++ first ++ "," else "Hi,"
  let isPlanReviewFocus := pyIn "Plan Review" serviceFocus && !(roleIsGcOrCm role)
  let parts : List String :=
    if roleIsGcOrCm role then gcParts salutation company projectName
    else if roleIsDeveloperOrOwner role then
      if isPlanReviewFocus then devOwnerEarlyParts salutation company projectName
      else devOwnerLateParts salutation company projectName
    else if roleIsArchitect role then
      if isPlanReviewFocus then architectEarlyParts salutation company projectName
      else architectLateParts salutation company projectName
    else
      if isPlanReviewFocus then defaultEarlyParts salutation projectName
      else defaultLateParts salutation projectName
  String.intercalate nl parts

/-- The subject computation of `_add_email`: the plan-review variant only
when the focus mentions Plan Review and the role is not
GC/Contractor-family. -/
def subjectFor (serviceFocus role projectName : String) : String :=
  if pyIn "Plan Review" serviceFocus && !(roleIsGcOrCm role) then
    "Third-Party Plan Review & Inspection Services for " ++ projectName ++
      " | Building Code Consulting LLC"
  else
    "Third-Party Inspection Services for " ++ projectName ++
      " | Building Code Consulting LLC"

/-- The character class `\w` of the slug regex. -/
def isWordChar (c : Char) : Bool := c.isAlphanum || c = '_'

/-- `re.sub(r"_+", "_", s)`: collapse runs of underscores. -/
def squeezeUnderscores : List Char → List Char
  | [] => []
  | [c] => [c]
  | c :: d :: rest =>
    if c = '_' && d = '_' then squeezeUnderscores (d :: rest)
    else c :: squeezeUnderscores (d :: rest)

/-- Python `s.strip(chr(95))`: drop leading and trailing underscores. -/
def stripUnderscores (l : List Char) : List Char :=
  ((l.dropWhile (fun c => c = '_')).reverse.dropWhile (fun c => c = '_')).reverse

/-- The `safe_slug` computation of `_add_email`. -/
def makeSlug (company contactName : String) : String :=
  let base := company ++ "_" ++ (if contactName ≠ "" then contactName else "Contact")
  let subbed := base.data.map (fun c => if isWordChar c then c else '_')
  ⟨stripUnderscores (squeezeUnderscores (subbed.take 48))⟩

/-- One generated outreach e-mail draft (the dict appended by
`_add_email`). -/
structure EmailDraft where
  slug : String := ""
  project : String := ""
  company : String := ""
  company_role : String := ""
  contact_role : String := ""
  contact_name : String := ""
  to_email : String := ""
  phone : String := ""
  subject : String := ""
  body : String := ""
deriving DecidableEq

/-- The arguments of one `_add_email` call. -/
structure AddRequest where
  project : String := ""
  company : String := ""
  role : String := ""
  contact_name : String := ""
  contact_role : String := ""
  email : String := ""
  phone : String := ""
  service_focus : String := ""
deriving DecidableEq

/-- The draft built by `_add_email` once the dedup checks pass. -/
def mkDraft (req : AddRequest) : EmailDraft :=
  { slug := makeSlug req.company req.contact_name,
    project := req.project,
    company := req.company,
    company_role := req.role,
    contact_role := req.contact_role,
    contact_name := req.contact_name,
    to_email := req.email,
    phone := req.phone,
    subject := subjectFor req.service_focus req.role req.project,
    body := generateEmailBody req.contact_name req.company req.role req.project req.service_focus }

/-- The mutable state of `phase5_generate_emails`: the accumulated drafts
and the `seen` set of `(lowercased email, project)` keys. -/
structure Phase5State where
  emails : List EmailDraft := []
  seen : List (String × String) := []

/-- `_add_email`: skip when the `(lowercased email, project)` key was
already seen or the contact was e-mailed within the suppression window;
otherwise record the key and append the draft. -/
def addEmail (recently : List String) (st : Phase5State) (req : AddRequest) : Phase5State :=
  let key := (pyLower req.email, req.project)
  if key ∈ st.seen then st
  else if pyLower req.email ∈ recently then st
  else { emails := st.emails ++ [mkDraft req], seen := st.seen ++ [key] }

/-- A contact returned by the enrichment research collaborator. -/
structure RContact where
  name : String := ""
  role : String := ""
  email : String := ""
  phone : String := ""
deriving DecidableEq

/-- The per-lead `_add_email` call sequence of `phase5_generate_emails`:
source 1 walks the detail-page contacts (requiring an `@` in the e-mail
and a non-empty cleaned company, mapping the role), source 2 walks the
research contacts of each parsed company. -/
def leadRequests (research : String → List RContact) (lead : Lead) : List AddRequest :=
  if pyStrip lead.project_name = "" then []
  else
    let projectName := pyStrip lead.project_name
    let stageText := if lead.stage ≠ "" then lead.stage else lead.construction_start
    let focus := (stageServiceFocus stageText).1
    let src1 := lead.detail_contacts.filterMap (fun dc =>
      let emailAddr := pyStrip dc.email
      if emailAddr = "" || !(pyIn "@" emailAddr) then none
      else
        let company := cleanCompanyName dc.company
        if company = "" then none
        else
          let role := pyStrip dc.role
          some { project := projectName, company := company, role := mapCwRole role,
                 contact_name := pyStrip dc.name, contact_role := role,
                 email := emailAddr, phone := "", service_focus := focus })
    let src2 := lead.companies_parsed.flatMap (fun cr =>
      (research cr.1).filterMap (fun ct =>
        let emailAddr := pyStrip ct.email
        if emailAddr = "" then none
        else
          some { project := projectName, company := cr.1, role := cr.2,
                 contact_name := pyStrip ct.name,
                 contact_role := pyStrip (if ct.role ≠ "" then ct.role else cr.2),
                 email := emailAddr, phone := pyStrip ct.phone, service_focus := focus }))
    src1 ++ src2

/-- The suppression set loaded at the top of `phase5_generate_emails`:
stripped lowercased e-mails of the log rows whose timestamp (`sent_at`,
falling back to `followup_sent_at` when `sent_at` is empty) parses and
lies within the last 60 days. -/
def recentlyEmailed (parseTs : String → Option Int) (log : List SendLogRow)
    (now : Int) : List String :=
  let cutoff := now - 60 * 86400
  log.filterMap (fun row =>
    let tsStr := if row.sent_at ≠ "" then row.sent_at else row.followup_sent_at
    match parseTs tsStr with
    | some t => if cutoff ≤ t then some (pyLower (pyStrip row.contact_email)) else none
    | none => none)

/-- `phase5_generate_emails`: load the suppression set, then fold
`_add_email` over every request of every lead. -/
def phase5GenerateEmails (parseTs : String → Option Int) (log : List SendLogRow)
    (now : Int) (research : String → List RContact) (leads : List Lead) : List EmailDraft :=
  let recently := recentlyEmailed parseTs log now
  ((leads.flatMap (leadRequests research)).foldl (addEmail recently) {}).emails

/-- The generation dedup key of a draft. -/
def draftKey (e : EmailDraft) : String × String := (pyLower e.to_email, e.project)

theorem addEmail_fold_invariant (recently : List String) (reqs : List AddRequest) :
    ∀ st : Phase5State,
      (∀ e ∈ st.emails, draftKey e ∈ st.seen) →
      List.Pairwise (fun a b => draftKey a ≠ draftKey b) st.emails →
      (∀ e ∈ st.emails, pyLower e.to_email ∉ recently) →
      ((∀ e ∈ (reqs.foldl (addEmail recently) st).emails,
          draftKey e ∈ (reqs.foldl (addEmail recently) st).seen) ∧
        List.Pairwise (fun a b => draftKey a ≠ draftKey b)
          (reqs.foldl (addEmail recently) st).emails ∧
        (∀ e ∈ (reqs.foldl (addEmail recently) st).emails,
          pyLower e.to_email ∉ recently)) := by
  induction reqs with
  | nil => intro st h1 h2 h3; exact ⟨h1, h2, h3⟩
  | cons r rs ih =>
    intro st h1 h2 h3
    rw [List.foldl_cons]
    have step :
        (∀ e ∈ (addEmail recently st r).emails, draftKey e ∈ (addEmail recently st r).seen) ∧
        List.Pairwise (fun a b => draftKey a ≠ draftKey b) (addEmail recently st r).emails ∧
        (∀ e ∈ (addEmail recently st r).emails, pyLower e.to_email ∉ recently) := by
      dsimp only [addEmail]
      by_cases hk : (pyLower r.email, r.project) ∈ st.seen
      · rw [if_pos hk]; exact ⟨h1, h2, h3⟩
      · rw [if_neg hk]
        by_cases hr : pyLower r.email ∈ recently
        · rw [if_pos hr]; exact ⟨h1, h2, h3⟩
        · rw [if_neg hr]
          have hkey : draftKey (mkDraft r) = (pyLower r.email, r.project) := rfl
          refine ⟨?_, ?_, ?_⟩
          · intro e he
            rcases List.mem_append.mp he with he | he
            · exact List.mem_append_left _ (h1 e he)
            · have : e = mkDraft r := List.mem_singleton.mp he
              rw [this, hkey]
              exact List.mem_append_right _ (List.mem_singleton.mpr rfl)
          · refine List.pairwise_append.mpr ⟨h2, List.pairwise_singleton _ _, ?_⟩
            intro a ha b hb
            have hb2 : b = mkDraft r := List.mem_singleton.mp hb
            rw [hb2, hkey]
            intro heq
            exact hk (heq ▸ h1 a ha)
          · intro e he
            rcases List.mem_append.mp he with he | he
            · exact h3 e he
            · have : e = mkDraft r := List.mem_singleton.mp he
              rw [this]
              exact hr
    exact ih _ step.1 step.2.1 step.2.2

/-- C7: within one phase-5 generation run, no two produced drafts share
the `(lowercased e-mail, project)` dedup key — at most one draft per
contact and project, whichever source paths the contact arrived by. -/
theorem phase5_one_draft_per_key (parseTs : String → Option Int) (log : List SendLogRow)
    (now : Int) (research : String → List RContact) (leads : List Lead) :
    List.Pairwise (fun a b => draftKey a ≠ draftKey b)
      (phase5GenerateEmails parseTs log now research leads) := by
  have h := addEmail_fold_invariant (recentlyEmailed parseTs log now)
    (leads.flatMap (leadRequests research)) {} (by simp) (by simp) (by simp)
  exact h.2.1

/-- A sample lead used to instantiate the phase-5 theorems on concrete
input. -/
def sampleLead : Lead :=
  { project_name := "1 Main St",
    detail_contacts :=
      [{ name := "Jane Roe", role := "Developer", email := "x@y.com", company := "Acme" }] }

/-- The timestamp parser of the C3 counterexample: `"OLD"` parses to time
0 (70 days before `now = 6048000`), `"NEW"` to 5184000 (10 days before). -/
def cexParse : String → Option Int :=
  fun s => if s = "OLD" then some 0 else if s = "NEW" then some 5184000 else none

/-- The send-log row of the C3 counterexample: its `sent_at` is 70 days
old while its `followup_sent_at` is 10 days old. -/
def cexRow : SendLogRow :=
  { contact_email := "x@y.com", sent_at := "OLD", followup_sent_at := "NEW" }

/-- C3, counterexample: `cexRow` has a follow-up timestamp within the
last 60 days, yet phase 5 still generates a draft for `x@y.com` — the
code consults `sent_at` whenever it is non-empty and never falls back to
`followup_sent_at`, so the claim that either timestamp in the window
suppresses the contact is false. -/
theorem suppression_counterexample :
    (cexParse cexRow.followup_sent_at = some 5184000 ∧
      6048000 - 60 * 86400 ≤ (5184000 : Int)) ∧
    (∃ d ∈ phase5GenerateEmails cexParse [cexRow] 6048000 (fun _ => []) [sampleLead],
      pyLower d.to_email = "x@y.com") := by
  exact ⟨⟨by decide, by decide⟩, by decide⟩

/-- C3, amended: the suppression set contains exactly the (stripped,
lowercased) e-mails of rows whose consulted timestamp — `sent_at` when
non-empty, otherwise `followup_sent_at` — parses into the last 60 days,
independent of project, and no generated draft is addressed to a member
of that set; a contact whose only entry is 70 days old is eligible
again. -/
theorem suppression_amended (parseTs : String → Option Int) (log : List SendLogRow)
    (now : Int) (research : String → List RContact) (leads : List Lead) :
    (∀ e, e ∈ recentlyEmailed parseTs log now ↔
        ∃ row ∈ log,
          (∃ t, parseTs (if row.sent_at ≠ "" then row.sent_at else row.followup_sent_at) =
              some t ∧ now - 60 * 86400 ≤ t) ∧
          e = pyLower (pyStrip row.contact_email)) ∧
    (∀ d ∈ phase5GenerateEmails parseTs log now research leads,
        pyLower d.to_email ∉ recentlyEmailed parseTs log now) := by
  constructor
  · intro e
    simp only [recentlyEmailed, List.mem_filterMap]
    constructor
    · rintro ⟨row, hrow, hf⟩
      cases hp : parseTs (if row.sent_at ≠ "" then row.sent_at else row.followup_sent_at) with
      | none => rw [hp] at hf; exact absurd hf (by simp)
      | some t =>
        rw [hp] at hf
        dsimp only at hf
        by_cases hc : now - 60 * 86400 ≤ t
        · rw [if_pos hc] at hf
          exact ⟨row, hrow, ⟨t, hp, hc⟩, (Option.some.inj hf).symm⟩
        · rw [if_neg hc] at hf
          exact absurd hf (by simp)
    · rintro ⟨row, hrow, ⟨t, hp, hc⟩, he⟩
      refine ⟨row, hrow, ?_⟩
      rw [hp]
      dsimp only
      rw [if_pos hc, he]
  · intro d hd
    have h := addEmail_fold_invariant (recentlyEmailed parseTs log now)
      (leads.flatMap (leadRequests research)) {} (by simp) (by simp) (by simp)
    exact h.2.2 d hd

/-- C3, witness: on the concrete 70-day-old log row, the sole generated
draft is addressed outside the suppression set. -/
theorem suppression_amended_witness :
    ∃ d ∈ phase5GenerateEmails cexParse [cexRow] 6048000 (fun _ => []) [sampleLead],
      pyLower d.to_email ∉ recentlyEmailed cexParse [cexRow] 6048000 := by
  obtain ⟨d, hd, -⟩ : ∃ d ∈ phase5GenerateEmails cexParse [cexRow] 6048000
      (fun _ => []) [sampleLead], True := by decide
  exact ⟨d, hd,
    (suppression_amended cexParse [cexRow] 6048000 (fun _ => []) [sampleLead]).2 d hd⟩

/-- C5, counterexample: a GC-family draft for a project literally named
`"Plan Review Center"` has `"Plan Review"` inside its subject line (as
part of the project name), so the claim that the subject never contains
that phrase is false as stated. -/
theorem gcSubject_counterexample :
    ∃ d ∈ phase5GenerateEmails (fun _ => none) [] 0 (fun _ => [])
        [{ project_name := "Plan Review Center",
           detail_contacts :=
             [{ name := "Bob Lee", role := "General Contractor",
                email := "g@x.com", company := "BuildCo" }] }],
      roleIsGcOrCm d.company_role = true ∧ pyIn "Plan Review" d.subject = true := by
  decide

/-- C5, amended: a draft whose target role is GC/Contractor-family always
gets the plain inspection-services subject — the plan-review subject
variant is never chosen, whatever the service focus — and its body is the
inspection-only GC/CM template, independent of the stage-derived focus. -/
theorem gcSubjectBody_amended (contactName company role projectName focus : String)
    (h : roleIsGcOrCm role = true) :
    subjectFor focus role projectName =
      "Third-Party Inspection Services for " ++ projectName ++
        " | Building Code Consulting LLC" ∧
    generateEmailBody contactName company role projectName focus =
      String.intercalate nl (gcParts
        (if firstName contactName ≠ "" then "Hi " ++ firstName contactName ++ "," else "Hi,")
        company projectName) := by
  constructor
  · dsimp only [subjectFor]
    rw [h]
    simp
  · dsimp only [generateEmailBody]
    rw [h]
    simp

/-- C5, witness: a concrete GC/Contractor draft for a plan-review-focus
lead still gets the inspection subject. -/
theorem gcSubjectBody_amended_witness :
    roleIsGcOrCm "GC/Contractor" = true ∧
    subjectFor "Plan Review" "GC/Contractor" "1 Main St" =
      "Third-Party Inspection Services for 1 Main St | Building Code Consulting LLC" :=
  ⟨by decide,
    (gcSubjectBody_amended "John Doe" "BuildCo" "GC/Contractor" "1 Main St" "Plan Review"
      (by decide)).1⟩

end CW
